import Mathlib

/-!
Shallow embedding of the CNC manufacturability analyzer
(`cnc_analyzer.py` and the detector modules it drives), together with
theorems settling the specification claims about it.

Modelling conventions:
* Python floats are modelled as exact rationals (`ℚ`); every numeric
  literal of the source (0.8, 0.3, ...) is carried over verbatim.
* Python dicts with optional keys are modelled as structures whose
  fields are `Option`-valued; `d.get(k, v)` becomes `Option.getD`.
* A Python function that may raise is modelled with `Except String`;
  external accessors that may raise (e.g. `mesh.volume`) are
  `Except String ℚ` fields of the mesh record.
* Quantities that the source computes through `trimesh`/`numpy` calls
  involving square roots (vector normalisation, ray-hit distances,
  nearest-neighbour distances) are carried either as per-face mesh
  facts (already-normalised dot products) or as squared distances;
  comparisons `d < w` on nonnegative data are represented as
  `d² < w²`, which is equivalent.
-/

/-! ## Score aggregator (`cnc_analyzer.py`) -/

/-- A detector slot of `self.results` as read by `calculate_score`:
a dict whose keys may be absent (error records carry only `error`).
Fields not consulted by the aggregator are omitted. -/
structure DetEntry where
  count : Option ℤ := none
  severity : Option ℤ := none
  has_problem : Option Bool := none
  error : Option String := none
deriving DecidableEq, Repr

instance : Inhabited DetEntry := ⟨{}⟩

/-- The results map of `CNCAnalyzer`: one optional slot per detector. -/
structure Results where
  undercuts : Option DetEntry := none
  internal_volumes : Option DetEntry := none
  small_features : Option DetEntry := none
  steep_walls : Option DetEntry := none
  narrow_channels : Option DetEntry := none
  deep_pockets : Option DetEntry := none
deriving DecidableEq, Repr

/-- Penalty of one count-based detector slot:
`min(base, results[name].get('count', 0) * per_face)` when the slot is
present, `0` when absent (the `if name in self.results` guard). -/
def countPenalty (base per_face : ℚ) (slot : Option DetEntry) : ℚ :=
  match slot with
  | none => 0
  | some e => min base (((e.count.getD 0 : ℤ) : ℚ) * per_face)

/-- The dict `{0: 0, 1: 15, 2: 35}` with `.get(severity, 0)`. -/
def internal_volumes_table (s : ℤ) : ℚ :=
  if s = 0 then 0 else if s = 1 then 15 else if s = 2 then 35 else 0

/-- The dict `{0: 0, 1: 5, 2: 10}` with `.get(severity, 0)`. -/
def small_features_table (s : ℤ) : ℚ :=
  if s = 0 then 0 else if s = 1 then 5 else if s = 2 then 10 else 0

/-- Penalty of one severity-based detector slot:
table lookup at `results[name].get('severity', 0)`, `0` when absent. -/
def sevPenalty (table : ℤ → ℚ) (slot : Option DetEntry) : ℚ :=
  match slot with
  | none => 0
  | some e => table (e.severity.getD 0)

/-- `CNCAnalyzer.calculate_score`: start at 100, subtract the six
penalties, return `max(0, score)`. -/
def calculate_score (r : Results) : ℚ :=
  max 0 (100 - countPenalty 40 0.8 r.undercuts
             - sevPenalty internal_volumes_table r.internal_volumes
             - sevPenalty small_features_table r.small_features
             - countPenalty 20 0.4 r.steep_walls
             - countPenalty 30 0.5 r.narrow_channels
             - countPenalty 40 1.0 r.deep_pockets)

/-- A present slot's `count` (defaulted as the code defaults it) is
nonnegative — what every detector, returning a `len(...)`, produces. -/
def slotCountNonneg (slot : Option DetEntry) : Prop :=
  0 ≤ (slot.getD default).count.getD 0

/-- A present slot's `severity` (defaulted) is one of 0, 1, 2 — what
the severity-based detectors produce. -/
def slotSev012 (slot : Option DetEntry) : Prop :=
  (slot.getD default).severity.getD 0 = 0 ∨
  (slot.getD default).severity.getD 0 = 1 ∨
  (slot.getD default).severity.getD 0 = 2

instance (slot : Option DetEntry) : Decidable (slotCountNonneg slot) := by
  unfold slotCountNonneg; infer_instance

instance (slot : Option DetEntry) : Decidable (slotSev012 slot) := by
  unfold slotSev012; infer_instance

/-- The claim's hypotheses on a results map: counts nonnegative and
severities in {0,1,2}, as every detector produces. -/
def ScoreHyp (r : Results) : Prop :=
  slotCountNonneg r.undercuts ∧ slotCountNonneg r.steep_walls ∧
  slotCountNonneg r.narrow_channels ∧ slotCountNonneg r.deep_pockets ∧
  slotSev012 r.internal_volumes ∧ slotSev012 r.small_features

instance (r : Results) : Decidable (ScoreHyp r) := by
  unfold ScoreHyp; infer_instance

lemma countPenalty_nonneg (base per_face : ℚ) (slot : Option DetEntry)
    (hb : 0 ≤ base) (hr : 0 ≤ per_face) (h : slotCountNonneg slot) :
    0 ≤ countPenalty base per_face slot := by
  cases slot with
  | none => simp [countPenalty]
  | some e =>
      simp only [countPenalty, le_min_iff]
      refine ⟨hb, mul_nonneg ?_ hr⟩
      exact_mod_cast h

lemma sevPenalty_nonneg (table : ℤ → ℚ) (slot : Option DetEntry)
    (ht : ∀ s, 0 ≤ table s) : 0 ≤ sevPenalty table slot := by
  cases slot with
  | none => simp [sevPenalty]
  | some e => exact ht _

lemma internal_volumes_table_nonneg (s : ℤ) : 0 ≤ internal_volumes_table s := by
  unfold internal_volumes_table
  split_ifs <;> norm_num

lemma small_features_table_nonneg (s : ℤ) : 0 ≤ small_features_table s := by
  unfold small_features_table
  split_ifs <;> norm_num

/-- C1: for every results map whose present entries carry a
nonnegative count and a severity in {0, 1, 2} (as every detector
produces), `calculate_score` — 100 minus `min(base, count·rate)`
per count-based detector and a severity-table lookup per
severity-based detector, clamped below at 0 — lies in [0, 100]. -/
theorem score_within_range (r : Results) (h : ScoreHyp r) :
    0 ≤ calculate_score r ∧ calculate_score r ≤ 100 := by
  obtain ⟨h1, h2, h3, h4, h5, h6⟩ := h
  constructor
  · exact le_max_left 0 _
  · have p1 := countPenalty_nonneg 40 0.8 r.undercuts (by norm_num) (by norm_num) h1
    have p2 := countPenalty_nonneg 20 0.4 r.steep_walls (by norm_num) (by norm_num) h2
    have p3 := countPenalty_nonneg 30 0.5 r.narrow_channels (by norm_num) (by norm_num) h3
    have p4 := countPenalty_nonneg 40 1.0 r.deep_pockets (by norm_num) (by norm_num) h4
    have p5 := sevPenalty_nonneg internal_volumes_table r.internal_volumes
      internal_volumes_table_nonneg
    have p6 := sevPenalty_nonneg small_features_table r.small_features
      small_features_table_nonneg
    unfold calculate_score
    apply max_le (by norm_num)
    linarith

/-- A concrete results map used as the C1 witness input. -/
def resultsC1 : Results where
  undercuts := some { count := some 12 }
  internal_volumes := some { severity := some 2 }
  small_features := some { severity := some 1 }
  deep_pockets := some { count := some 3 }

/-- C1 witness: a concrete results map satisfying the hypotheses, at
which the score bounds hold. -/
theorem score_within_range_witness :
    ScoreHyp resultsC1 ∧
    (0 ≤ calculate_score resultsC1 ∧ calculate_score resultsC1 ≤ 100) :=
  ⟨by decide, score_within_range resultsC1 (by decide)⟩

/-! ## `CNCAnalyzer.analyze_all` (partial-failure boundary) -/

/-- The six detector names, in the iteration order of the default
config's `analysis_methods` dict. -/
inductive DetName where
  | undercuts | internal_volumes | small_features
  | steep_walls | narrow_channels | deep_pockets
deriving DecidableEq, Repr

/-- The slice of `AnalysisConfig` that `analyze_all` consults: which
detectors are enabled.  The numeric options are consumed inside the
individual detectors, which `analyze_all` sees only through their
run behaviour (the `run` argument below). -/
structure Config where
  analysis_methods : DetName → Bool

/-- The record stored for a failing detector:
`self.results[function_name] = {'error': str(e)}` — only the `error`
key, nothing else. -/
def errorEntry (msg : String) : DetEntry := { error := some msg }

/-- One iteration of the `analyze_all` loop: if the detector is
enabled, run it (`analyze_single_function`, abstracted as `run`),
catching any exception into `errorEntry`; a disabled detector leaves
its slot absent. -/
def runSlot (cfg : Config) (run : DetName → Except String DetEntry)
    (d : DetName) : Option DetEntry :=
  if cfg.analysis_methods d then
    some (match run d with
          | Except.ok e => e
          | Except.error msg => errorEntry msg)
  else none

/-- `CNCAnalyzer.analyze_all` on a fresh analyzer (`self.results = {}`):
fill each enabled detector's slot from its run, never aborting. -/
def analyze_all (cfg : Config) (run : DetName → Except String DetEntry) :
    Results where
  undercuts := runSlot cfg run .undercuts
  internal_volumes := runSlot cfg run .internal_volumes
  small_features := runSlot cfg run .small_features
  steep_walls := runSlot cfg run .steep_walls
  narrow_channels := runSlot cfg run .narrow_channels
  deep_pockets := runSlot cfg run .deep_pockets

/-- Read a results map at a detector name. -/
def Results.slot (r : Results) : DetName → Option DetEntry
  | .undercuts => r.undercuts
  | .internal_volumes => r.internal_volumes
  | .small_features => r.small_features
  | .steep_walls => r.steep_walls
  | .narrow_channels => r.narrow_channels
  | .deep_pockets => r.deep_pockets

/-- The penalty `calculate_score` subtracts for one detector's slot. -/
def detPenalty (r : Results) : DetName → ℚ
  | .undercuts => countPenalty 40 0.8 r.undercuts
  | .internal_volumes => sevPenalty internal_volumes_table r.internal_volumes
  | .small_features => sevPenalty small_features_table r.small_features
  | .steep_walls => countPenalty 20 0.4 r.steep_walls
  | .narrow_channels => countPenalty 30 0.5 r.narrow_channels
  | .deep_pockets => countPenalty 40 1.0 r.deep_pockets

lemma analyze_all_slot (cfg : Config) (run : DetName → Except String DetEntry)
    (d : DetName) : (analyze_all cfg run).slot d = runSlot cfg run d := by
  cases d <;> rfl

lemma calculate_score_detPenalty (r : Results) :
    calculate_score r =
      max 0 (100 - detPenalty r .undercuts - detPenalty r .internal_volumes
               - detPenalty r .small_features - detPenalty r .steep_walls
               - detPenalty r .narrow_channels - detPenalty r .deep_pockets) := rfl

/-- An error record contributes zero penalty: its `count` and
`severity` lookups default to 0. -/
lemma detPenalty_errorEntry (r : Results) (d : DetName) (msg : String)
    (h : r.slot d = some (errorEntry msg)) : detPenalty r d = 0 := by
  cases d <;>
    simp_all [Results.slot, detPenalty, countPenalty, sevPenalty, errorEntry,
      internal_volumes_table, small_features_table]

/-- The enabled config used in the C2 scenario: every detector on. -/
def cfgAll : Config := ⟨fun _ => true⟩

/-- Detector behaviour for the C2 scenario: `narrow_channels` throws,
every other detector returns a normal entry. -/
def runC2 : DetName → Except String DetEntry
  | .narrow_channels => Except.error "KDTree failed"
  | .undercuts => Except.ok { count := some 2, severity := some 0 }
  | _ => Except.ok { count := some 0, severity := some 0 }

/-- C2 counterexample: with all detectors enabled and only
`narrow_channels` throwing, `analyze_all` stores `{'error': msg}` for
it — an entry whose `severity` key is absent rather than 0 and whose
`has_problem` key is absent rather than `false`, so the claimed record
shape `{error, severity: 0, has_problem: false}` is not produced. -/
theorem analyze_all_error_record_counterexample :
    (analyze_all cfgAll runC2).narrow_channels =
      some (errorEntry "KDTree failed") ∧
    (errorEntry "KDTree failed").severity ≠ some 0 ∧
    (errorEntry "KDTree failed").has_problem ≠ some false := by
  refine ⟨rfl, by simp [errorEntry], by simp [errorEntry]⟩

/-- C2 as amended: if exactly one enabled detector throws, the run
still fills a slot for every other enabled detector with its normally
computed entry, the failing detector's slot holds `{error: message}`
(only the `error` key), that slot contributes zero penalty to the
score, and the score is a valid value in [0, 100] (given the normal
entries are well-formed). -/
theorem analyze_all_partial_failure (cfg : Config)
    (run : DetName → Except String DetEntry) (ok : DetName → DetEntry)
    (dstar : DetName) (msg : String)
    (hfail : run dstar = Except.error msg)
    (hok : ∀ d, d ≠ dstar → run d = Except.ok (ok d))
    (henabled : cfg.analysis_methods dstar = true)
    (hwf : ∀ d, slotCountNonneg (some (ok d)) ∧ slotSev012 (some (ok d))) :
    (analyze_all cfg run).slot dstar = some (errorEntry msg) ∧
    (∀ d, d ≠ dstar → cfg.analysis_methods d = true →
      (analyze_all cfg run).slot d = some (ok d)) ∧
    detPenalty (analyze_all cfg run) dstar = 0 ∧
    (0 ≤ calculate_score (analyze_all cfg run) ∧
     calculate_score (analyze_all cfg run) ≤ 100) := by
  have hslotstar : (analyze_all cfg run).slot dstar = some (errorEntry msg) := by
    rw [analyze_all_slot, runSlot, henabled, hfail]
    simp
  have hslotok : ∀ d, d ≠ dstar → cfg.analysis_methods d = true →
      (analyze_all cfg run).slot d = some (ok d) := by
    intro d hd he
    rw [analyze_all_slot, runSlot, he, hok d hd]
    simp
  have hslotwf : ∀ d, slotCountNonneg ((analyze_all cfg run).slot d) ∧
      slotSev012 ((analyze_all cfg run).slot d) := by
    intro d
    by_cases hd : d = dstar
    · subst hd
      rw [hslotstar]
      exact ⟨by simp [slotCountNonneg, errorEntry],
             Or.inl (by simp [slotSev012, errorEntry])⟩
    · rw [analyze_all_slot, runSlot]
      by_cases he : cfg.analysis_methods d = true
      · rw [he, hok d hd]
        simpa using hwf d
      · simp only [Bool.not_eq_true] at he
        rw [he]
        simp only [Bool.false_eq_true, if_false]
        exact ⟨by decide, Or.inl (by decide)⟩
  refine ⟨hslotstar, hslotok, detPenalty_errorEntry _ dstar msg hslotstar, ?_⟩
  apply score_within_range
  exact ⟨(hslotwf .undercuts).1, (hslotwf .steep_walls).1,
    (hslotwf .narrow_channels).1, (hslotwf .deep_pockets).1,
    (hslotwf .internal_volumes).2, (hslotwf .small_features).2⟩

/-- The normal entries of the C2 scenario, as a function. -/
def okC2 : DetName → DetEntry
  | .undercuts => { count := some 2, severity := some 0 }
  | _ => { count := some 0, severity := some 0 }

/-- C2 witness: the amended theorem applied to the concrete scenario
in which `narrow_channels` throws and the rest succeed. -/
theorem analyze_all_partial_failure_witness :
    (analyze_all cfgAll runC2).slot .narrow_channels =
      some (errorEntry "KDTree failed") ∧
    (∀ d, d ≠ DetName.narrow_channels → cfgAll.analysis_methods d = true →
      (analyze_all cfgAll runC2).slot d = some (okC2 d)) ∧
    detPenalty (analyze_all cfgAll runC2) .narrow_channels = 0 ∧
    (0 ≤ calculate_score (analyze_all cfgAll runC2) ∧
     calculate_score (analyze_all cfgAll runC2) ≤ 100) :=
  analyze_all_partial_failure cfgAll runC2 okC2 .narrow_channels
    "KDTree failed" rfl (by intro d hd; cases d <;> simp_all [runC2, okC2])
    rfl (by intro d; cases d <;> exact ⟨by decide, by decide⟩)

/-! ## `CNCAnalyzer.get_problem_regions` -/

/-- A completed count-based detector entry as `get_problem_regions`
reads it: `count` and `indices` keys present. -/
structure CountedEntry where
  count : ℕ
  indices : List ℕ
  has_problem : Bool
deriving DecidableEq, Repr

/-- A completed severity-based detector entry (internal volumes,
small features): `severity` and `has_problem` keys present. -/
structure SeverityEntry where
  severity : ℤ
  has_problem : Bool
deriving DecidableEq, Repr

/-- A completed results map, typed per detector family. -/
structure FullResults where
  undercuts : Option CountedEntry := none
  internal_volumes : Option SeverityEntry := none
  small_features : Option SeverityEntry := none
  steep_walls : Option CountedEntry := none
  narrow_channels : Option CountedEntry := none
  deep_pockets : Option CountedEntry := none
deriving DecidableEq, Repr

/-- One `if name in results and results[name]['count'] > 0` block. -/
def countedRegion (label : String) (slot : Option CountedEntry) :
    List (String × List ℕ) :=
  match slot with
  | some e => if 0 < e.count then [(label, e.indices)] else []
  | none => []

/-- The internal-volumes block:
`if 'internal_volumes' in results and results['internal_volumes']['severity'] > 0`,
appending an empty index list. -/
def ivRegion (slot : Option SeverityEntry) : List (String × List ℕ) :=
  match slot with
  | some e => if 0 < e.severity then [("Internal Volumes", ([] : List ℕ))] else []
  | none => []

/-- `CNCAnalyzer.get_problem_regions`: the five blocks, in source
order; internal volumes appends an empty index list, and no block
exists for `small_features`. -/
def get_problem_regions (r : FullResults) : List (String × List ℕ) :=
  countedRegion "Undercuts" r.undercuts ++
  ivRegion r.internal_volumes ++
  countedRegion "Steep Walls" r.steep_walls ++
  countedRegion "Narrow Channels" r.narrow_channels ++
  countedRegion "Deep Pockets" r.deep_pockets

lemma mem_countedRegion {label : String} {slot : Option CountedEntry}
    {p : String × List ℕ} (h : p ∈ countedRegion label slot) :
    p.1 = label := by
  rcases slot with _ | e
  · simp [countedRegion] at h
  · simp only [countedRegion] at h
    split_ifs at h <;> simp_all

lemma mem_ivRegion {slot : Option SeverityEntry}
    {p : String × List ℕ} (h : p ∈ ivRegion slot) :
    p.1 = "Internal Volumes" := by
  rcases slot with _ | e
  · simp [ivRegion] at h
  · simp only [ivRegion] at h
    split_ifs at h <;> simp_all

/-- A completed results map in which only the small-features detector
reports a problem. -/
def fullResultsSF : FullResults where
  small_features := some { severity := 1, has_problem := true }

/-- C7 counterexample: a completed results map whose small-features
entry has `has_problem = true`, yet `get_problem_regions` emits no
pair at all — in particular no "Small Features" pair — refuting
"one pair for every detector with has_problem = true, including the
small-features detector". -/
theorem get_problem_regions_counterexample :
    (fullResultsSF.small_features.map SeverityEntry.has_problem
       = some true) ∧
    get_problem_regions fullResultsSF = [] := by
  exact ⟨rfl, rfl⟩

/-- C7 as amended: `get_problem_regions` emits `(label, indices)` for
each of undercuts, steep walls, narrow channels and deep pockets whose
entry has `count > 0`, and `("Internal Volumes", ∅)` when the
internal-volumes severity is positive — the empty list, not a derived
proxy (the inward-normal display proxy is substituted downstream by
the visualization module for empty index sets); the small-features
detector is never emitted. -/
theorem get_problem_regions_emitted (r : FullResults) :
    (∀ p ∈ get_problem_regions r, p.1 ≠ "Small Features") ∧
    (∀ e, r.undercuts = some e → 0 < e.count →
      ("Undercuts", e.indices) ∈ get_problem_regions r) ∧
    (∀ e, r.internal_volumes = some e → 0 < e.severity →
      ("Internal Volumes", ([] : List ℕ)) ∈ get_problem_regions r) ∧
    (∀ e, r.steep_walls = some e → 0 < e.count →
      ("Steep Walls", e.indices) ∈ get_problem_regions r) ∧
    (∀ e, r.narrow_channels = some e → 0 < e.count →
      ("Narrow Channels", e.indices) ∈ get_problem_regions r) ∧
    (∀ e, r.deep_pockets = some e → 0 < e.count →
      ("Deep Pockets", e.indices) ∈ get_problem_regions r) := by
  refine ⟨?_, ?_, ?_, ?_, ?_, ?_⟩
  · intro p hp
    simp only [get_problem_regions, List.mem_append] at hp
    rcases hp with ((((h | h) | h) | h) | h)
    · rw [mem_countedRegion h]; decide
    · rw [mem_ivRegion h]; decide
    · rw [mem_countedRegion h]; decide
    · rw [mem_countedRegion h]; decide
    · rw [mem_countedRegion h]; decide
  · intro e he hc
    simp only [get_problem_regions, countedRegion, he, if_pos hc,
      List.mem_append, List.mem_singleton]
    tauto
  · intro e he hc
    simp only [get_problem_regions, ivRegion, he, if_pos hc,
      List.mem_append, List.mem_singleton]
    tauto
  · intro e he hc
    simp only [get_problem_regions, countedRegion, he, if_pos hc,
      List.mem_append, List.mem_singleton]
    tauto
  · intro e he hc
    simp only [get_problem_regions, countedRegion, he, if_pos hc,
      List.mem_append, List.mem_singleton]
    tauto
  · intro e he hc
    simp only [get_problem_regions, countedRegion, he, if_pos hc,
      List.mem_append, List.mem_singleton]
    tauto

/-- A concrete completed results map used as the C7 witness input. -/
def fullResultsW : FullResults where
  undercuts := some { count := 2, indices := [4, 7], has_problem := true }
  internal_volumes := some { severity := 1, has_problem := true }

/-- C7 witness: the amended emission theorem applied at a concrete
completed results map. -/
theorem get_problem_regions_emitted_witness :
    ("Undercuts", [4, 7]) ∈ get_problem_regions fullResultsW ∧
    ("Internal Volumes", ([] : List ℕ)) ∈ get_problem_regions fullResultsW :=
  ⟨(get_problem_regions_emitted fullResultsW).2.1
      { count := 2, indices := [4, 7], has_problem := true } rfl (by decide),
   (get_problem_regions_emitted fullResultsW).2.2.1
      { severity := 1, has_problem := true } rfl (by decide)⟩

/-! ## Internal volumes (`preprocess/internal_volumes_check.py`) -/

/-- The mesh facts that the internal-volume checks consult.  `volume`
and `convex_hull_volume` are accessors of the external mesh object
that may raise; they are modelled with `Except`. -/
structure MeshIV where
  is_watertight : Bool
  vertices : List (ℚ × ℚ × ℚ)
  bounds_min : ℚ × ℚ × ℚ
  bounds_max : ℚ × ℚ × ℚ
  volume : Except String ℚ
  convex_hull_volume : Except String ℚ

/-- Coordinate of a point along axis 0, 1 or 2. -/
def axisCoord : ℕ → (ℚ × ℚ × ℚ) → ℚ
  | 0, p => p.1
  | 1, p => p.2.1
  | _, p => p.2.2

/-- `np.sum(np.abs(vertices[:, axis] - bound) < tolerance)`. -/
def nearBoundaryCount (m : MeshIV) (tolerance : ℚ) (a : ℕ) (b : ℚ) : ℕ :=
  (m.vertices.filter (fun v => |axisCoord a v - b| < tolerance)).length

/-- `check_external_openings`: some boundary plane of the bounding box
has more than 3 vertices within 0.1 mm of it.  (The source wraps this
in try/except returning True; the computation here is total.) -/
def check_external_openings (m : MeshIV) : Bool :=
  (List.range 3).any (fun a =>
    decide (3 < nearBoundaryCount m 0.1 a (axisCoord a m.bounds_min)) ||
    decide (3 < nearBoundaryCount m 0.1 a (axisCoord a m.bounds_max)))

/-- The result dict shared by both internal-volume strategies; the
`has_external_openings` key exists only in the context-aware dict, so
it is `Option`-valued here. -/
structure IVData where
  is_watertight : Bool
  actual_volume : ℚ
  convex_volume : ℚ
  volume_ratio : ℚ
  has_external_openings : Option Bool := none
  error : Option String := none
deriving DecidableEq, Repr

/-- The initial result dict of `realistic_internal_volumes`. -/
def ivData0 (m : MeshIV) : IVData where
  is_watertight := m.is_watertight
  actual_volume := 0
  convex_volume := 0
  volume_ratio := 0

/-- `realistic_internal_volumes`: severity 0 with an error on a
non-watertight mesh; otherwise the volume/convex-hull ratio with the
external-openings override; any volume-computation failure (including
a zero convex-hull volume) is caught into severity 0 with an error. -/
def realistic_internal_volumes (m : MeshIV) : ℤ × IVData :=
  if m.is_watertight = false then
    (0, { ivData0 m with
          error := some "Mesh is not watertight - cannot detect internal volumes reliably" })
  else
    match m.volume with
    | Except.error e =>
        (0, { ivData0 m with error := some ("Error calculating volumes: " ++ e) })
    | Except.ok av =>
      match m.convex_hull_volume with
      | Except.error e =>
          (0, { ivData0 m with error := some ("Error calculating volumes: " ++ e) })
      | Except.ok cv =>
        if cv = 0 then
          (0, { ivData0 m with
                error := some "Error calculating volumes: float division by zero" })
        else
          let ratio := av / cv
          let r1 : IVData :=
            { ivData0 m with
              actual_volume := av, convex_volume := cv, volume_ratio := ratio }
          if check_external_openings m then (0, r1)
          else if ratio < 0.3 then (2, r1)
          else if ratio < 0.6 then (1, r1)
          else (0, r1)

/-- The context-aware external-openings test: some boundary plane has
more than 10% of all vertices within 1.0 mm of it.  (The inner-loop
`break` in the source only exits the bound loop; the resulting flag
equals this disjunction.) -/
def context_openings (m : MeshIV) : Bool :=
  (List.range 3).any (fun a =>
    decide ((m.vertices.length : ℚ) * 0.1 <
      (nearBoundaryCount m 1.0 a (axisCoord a m.bounds_min) : ℚ)) ||
    decide ((m.vertices.length : ℚ) * 0.1 <
      (nearBoundaryCount m 1.0 a (axisCoord a m.bounds_max) : ℚ)))

/-- The initial result dict of `context_aware_internal_volumes`,
which does carry the `has_external_openings` key (initially False). -/
def ivData0C (m : MeshIV) : IVData :=
  { ivData0 m with has_external_openings := some false }

/-- `context_aware_internal_volumes`: as the realistic strategy but
with the 10%-of-vertices openings test, a 0.7 upper ratio tier, and
the `has_external_openings` key recorded. -/
def context_aware_internal_volumes (m : MeshIV) : ℤ × IVData :=
  if m.is_watertight = false then
    (0, { ivData0C m with error := some "Mesh is not watertight" })
  else
    match m.volume with
    | Except.error e => (0, { ivData0C m with error := some e })
    | Except.ok av =>
      match m.convex_hull_volume with
      | Except.error e => (0, { ivData0C m with error := some e })
      | Except.ok cv =>
        if cv = 0 then
          (0, { ivData0C m with error := some "float division by zero" })
        else
          let ratio := av / cv
          let r1 : IVData :=
            { ivData0C m with
              actual_volume := av, convex_volume := cv, volume_ratio := ratio,
              has_external_openings := some (context_openings m) }
          if context_openings m then (0, r1)
          else if ratio < 0.3 then (2, r1)
          else if ratio < 0.7 then (1, r1)
          else (0, r1)

/-- The dict returned by `analyze_internal_volumes`. -/
structure IVResult where
  severity : ℤ
  data : IVData
  analysis_type : String
  has_problem : Bool
  recommendation : String
deriving DecidableEq, Repr

/-- `analyze_internal_volumes`: dispatch on `use_context`, then wrap
with `has_problem = severity > 0` and the recommendation table. -/
def analyze_internal_volumes (m : MeshIV) (use_context : Bool) : IVResult :=
  let sd := if use_context then context_aware_internal_volumes m
            else realistic_internal_volumes m
  { severity := sd.1
    data := sd.2
    analysis_type := if use_context then "context-aware" else "realistic"
    has_problem := decide (0 < sd.1)
    recommendation :=
      if sd.1 = 0 then "No internal volume issues"
      else if sd.1 = 1 then "Minor hollowness - verify design intent"
      else if sd.1 = 2 then "Severe internal volumes - redesign required"
      else "Unknown" }

/-- C3: on a non-watertight mesh, both strategies of
`analyze_internal_volumes` return severity 0 with a populated,
non-empty error message (and, being total functions, never raise);
the result is a fixed record — identical for every non-watertight
mesh — so the volume-to-convex-hull ratio is not consulted. -/
theorem internal_volumes_non_watertight (m : MeshIV) (u : Bool)
    (h : m.is_watertight = false) :
    (analyze_internal_volumes m u).severity = 0 ∧
    (analyze_internal_volumes m u).data.error =
      some (if u then "Mesh is not watertight"
            else "Mesh is not watertight - cannot detect internal volumes reliably") ∧
    (if u then "Mesh is not watertight"
     else "Mesh is not watertight - cannot detect internal volumes reliably") ≠ "" ∧
    (∀ m' : MeshIV, m'.is_watertight = false →
      (analyze_internal_volumes m u).severity =
        (analyze_internal_volumes m' u).severity ∧
      (analyze_internal_volumes m u).data.error =
        (analyze_internal_volumes m' u).data.error ∧
      (analyze_internal_volumes m u).data.volume_ratio =
        (analyze_internal_volumes m' u).data.volume_ratio) := by
  cases u <;>
    simp_all [analyze_internal_volumes, context_aware_internal_volumes,
      realistic_internal_volumes, ivData0C, ivData0]

/-- A concrete non-watertight mesh used as the C3 witness input. -/
def meshIVW : MeshIV where
  is_watertight := false
  vertices := [(0, 0, 0), (1, 0, 0), (0, 1, 0)]
  bounds_min := (0, 0, 0)
  bounds_max := (1, 1, 0)
  volume := Except.error "mesh is not watertight"
  convex_hull_volume := Except.ok 1

/-- C3 witness: the theorem applied to a concrete non-watertight mesh
under the context-aware strategy. -/
theorem internal_volumes_non_watertight_witness :
    (analyze_internal_volumes meshIVW true).severity = 0 ∧
    (analyze_internal_volumes meshIVW true).data.error =
      some "Mesh is not watertight" :=
  ⟨(internal_volumes_non_watertight meshIVW true rfl).1,
   (internal_volumes_non_watertight meshIVW true rfl).2.1⟩

/-! ## Undercuts (`undercut_check.py`) -/

/-- Per-face facts consumed by the undercut strategies.
`radial_alignment` is the already-computed dot product
`np.dot(normal, to_face_norm)` of the unit face normal with the
normalised direction from the mean face centroid to the face centroid
(its normalisation involves a square root, so it is carried as a
mesh fact); `has_tool_access` and `is_external` are the
`geometric_context.analyze_face_context` facts, which come from
ray probes against the external mesh object. -/
structure FaceU where
  normal_z : ℚ
  radial_alignment : ℚ
  has_tool_access : Bool
  is_external : Bool
deriving DecidableEq, Repr

instance : Inhabited FaceU := ⟨⟨0, 0, true, true⟩⟩

/-- The mesh as the undercut detector sees it. -/
structure MeshU where
  faces : List FaceU
deriving DecidableEq, Repr

/-- `find_undercuts` (basic strategy): faces with `normal[2] > 0.3`
and `alignment < -0.2`. -/
def find_undercuts (m : MeshU) : List ℕ :=
  (List.range m.faces.length).filter (fun i =>
    decide (0.3 < (m.faces.getD i default).normal_z) &&
    decide ((m.faces.getD i default).radial_alignment < -0.2))

/-- `context_aware_undercuts`: all faces with
`not has_tool_access and not is_external`. -/
def context_aware_undercuts (m : MeshU) : List ℕ :=
  (List.range m.faces.length).filter (fun i =>
    !(m.faces.getD i default).has_tool_access &&
    !(m.faces.getD i default).is_external)

/-- The dict returned by `analyze_undercuts`. -/
structure UndercutResult where
  count : ℕ
  indices : List ℕ
  percentage : ℚ
  analysis_type : String
  severity : String
deriving DecidableEq, Repr

/-- `analyze_undercuts`: select the strategy, then attach count,
percentage and the count-tier severity string.  (In ℚ the percentage
of an empty mesh is 0 where Python would raise ZeroDivisionError;
no claim depends on that case.) -/
def analyze_undercuts (m : MeshU) (use_context : Bool) : UndercutResult :=
  let idx := if use_context then context_aware_undercuts m else find_undercuts m
  { count := idx.length
    indices := idx
    percentage := (idx.length : ℚ) / (m.faces.length : ℚ) * 100
    analysis_type := if use_context then "context-aware" else "basic"
    severity := if 100 < idx.length then "high"
                else if 50 < idx.length then "medium"
                else "low" }

/-- A face that the context-aware strategy always flags. -/
def flaggedFaceU : FaceU := ⟨1, 0, false, false⟩

/-- A 50-face mesh all of whose faces are context-aware undercuts. -/
def meshU50 : MeshU := ⟨List.replicate 50 flaggedFaceU⟩

/-- C5 counterexample: a mesh with exactly 50 undercut faces gets
severity "low", not the "medium" the claim assigns to
`50 <= n < 100` — the source tiers are strict (`> 100`, `> 50`). -/
theorem undercut_severity_counterexample :
    (analyze_undercuts meshU50 true).count = 50 ∧
    (analyze_undercuts meshU50 true).severity = "low" ∧
    "low" ≠ "medium" := by
  refine ⟨by decide, by decide, by decide⟩

/-- C5 as amended: for every mesh and strategy, the severity of
`analyze_undercuts` is "low" when the undercut count n satisfies
n ≤ 50, "medium" when 50 < n ≤ 100, and "high" when n > 100. -/
theorem undercut_severity_tiers (m : MeshU) (u : Bool) :
    ((analyze_undercuts m u).count ≤ 50 →
      (analyze_undercuts m u).severity = "low") ∧
    (50 < (analyze_undercuts m u).count →
      (analyze_undercuts m u).count ≤ 100 →
      (analyze_undercuts m u).severity = "medium") ∧
    (100 < (analyze_undercuts m u).count →
      (analyze_undercuts m u).severity = "high") := by
  have hs : (analyze_undercuts m u).severity =
      (if 100 < (analyze_undercuts m u).count then "high"
       else if 50 < (analyze_undercuts m u).count then "medium"
       else "low") := rfl
  rw [hs]
  generalize (analyze_undercuts m u).count = n
  refine ⟨?_, ?_, ?_⟩ <;> intros <;> split_ifs <;> first | rfl | omega

/-- C5 witness: the amended tiers applied at the concrete 50-face
mesh. -/
theorem undercut_severity_tiers_witness :
    (analyze_undercuts meshU50 true).severity = "low" :=
  (undercut_severity_tiers meshU50 true).1 (by decide)

/-! ## Deep pockets (`deep_pockets_check.py` and
`src/manufacture_analysis.py`) -/

/-- Per-face facts consumed by `find_deep_pockets`.  `ray_hits` holds
the distances `np.linalg.norm(locations - center)` of the ray cast
along the face normal (`none` models a raised exception inside the
probe); `alignment` is the already-computed dot product
`np.sum(face_normals * (-to_faces_norm))` used by the 'normal'
method. -/
structure FaceDP where
  ray_hits : Option (List ℚ)
  alignment : ℚ
deriving DecidableEq, Repr

instance : Inhabited FaceDP := ⟨⟨none, 0⟩⟩

/-- The mesh as the deep-pocket detector sees it. -/
structure MeshDP where
  faces : List FaceDP
deriving DecidableEq, Repr

/-- `estimate_pocket_depth`: among hits farther than the 0.1 mm
self-hit epsilon, the nearest; 0 when there is none, when the ray
reports nothing, or when the probe raises. -/
def estimate_pocket_depth (f : FaceDP) : ℚ :=
  match f.ray_hits with
  | none => 0
  | some hits =>
    if hits.length = 0 then 0
    else
      match hits.filter (fun d => decide (mkRat 1 10 < d)) with
      | [] => 0
      | d :: ds => ds.foldl min d

/-- The metadata dict of `find_deep_pockets`. -/
structure DPData where
  method : String
  depth_threshold : ℚ
  total_faces : ℕ
  deep_faces_count : ℕ
  max_depth : ℚ
  error : Option String := none
deriving DecidableEq, Repr

/-- The initial metadata dict. -/
def dpData0 (m : MeshDP) (depth_threshold : ℚ) (method : String) : DPData where
  method := method
  depth_threshold := depth_threshold
  total_faces := m.faces.length
  deep_faces_count := 0
  max_depth := 0

/-- The ray-method face list: faces whose estimated depth exceeds the
threshold. -/
def rayDeepFaces (m : MeshDP) (depth_threshold : ℚ) : List ℕ :=
  (List.range m.faces.length).filter (fun i =>
    decide (depth_threshold < estimate_pocket_depth (m.faces.getD i default)))

/-- The running maximum `max_depth = max(max_depth, depth)` over the
flagged faces, starting from 0. -/
def rayMaxDepth (m : MeshDP) (depth_threshold : ℚ) : ℚ :=
  (rayDeepFaces m depth_threshold).foldl
    (fun acc i => max acc (estimate_pocket_depth (m.faces.getD i default))) 0

/-- `find_deep_pockets` of `deep_pockets_check.py`.  Its 'normal'
branch evaluates `mesh.verticesh.vertices` — a misspelt attribute
whose access raises AttributeError; the enclosing handler catches it,
records `str(e)` (quotes elided here) and returns an empty array. -/
def find_deep_pockets (m : MeshDP) (depth_threshold : ℚ) (method : String) :
    List ℕ × DPData :=
  if method = "ray" then
    let deep := rayDeepFaces m depth_threshold
    (deep, { dpData0 m depth_threshold method with
             max_depth := rayMaxDepth m depth_threshold
             deep_faces_count := deep.length })
  else if method = "normal" then
    ([], { dpData0 m depth_threshold method with
           error := some "Trimesh object has no attribute verticesh" })
  else
    ([], { dpData0 m depth_threshold method with
           error := some ("Unknown method: " ++ method) })

namespace ManufactureAnalysis

/-- `find_deep_pockets` of `src/manufacture_analysis.py`: identical
except that its 'normal' branch spells `mesh.vertices` correctly and
flags the faces with alignment above 0.3, with no ray casting and no
error. -/
def find_deep_pockets (m : MeshDP) (depth_threshold : ℚ) (method : String) :
    List ℕ × DPData :=
  if method = "ray" then
    let deep := rayDeepFaces m depth_threshold
    (deep, { dpData0 m depth_threshold method with
             max_depth := rayMaxDepth m depth_threshold
             deep_faces_count := deep.length })
  else if method = "normal" then
    let deep := (List.range m.faces.length).filter (fun i =>
      decide (mkRat 3 10 < (m.faces.getD i default).alignment))
    (deep, { dpData0 m depth_threshold method with
             deep_faces_count := deep.length })
  else
    ([], { dpData0 m depth_threshold method with
           error := some ("Unknown method: " ++ method) })

end ManufactureAnalysis

/-- The dict returned by `analyze_deep_pockets` (which calls the
`find_deep_pockets` of its own file, `deep_pockets_check.py`). -/
structure DPResult where
  count : ℕ
  indices : List ℕ
  data : DPData
  method : String
  depth_threshold : ℚ
  has_problem : Bool
  severity : String
  max_depth : ℚ
deriving DecidableEq, Repr

/-- `analyze_deep_pockets`: wrap `find_deep_pockets` with count,
`has_problem` and the `> 50` / `> 20` severity tiers. -/
def analyze_deep_pockets (m : MeshDP) (depth_threshold : ℚ) (method : String) :
    DPResult :=
  let r := find_deep_pockets m depth_threshold method
  { count := r.1.length
    indices := r.1
    data := r.2
    method := method
    depth_threshold := depth_threshold
    has_problem := decide (0 < r.1.length)
    severity := if 50 < r.1.length then "high"
                else if 20 < r.1.length then "medium"
                else "low"
    max_depth := r.2.max_depth }

lemma rayDeepFaces_antitone (m : MeshDP) {t1 t2 : ℚ} (h : t1 ≤ t2) :
    (rayDeepFaces m t2).length ≤ (rayDeepFaces m t1).length := by
  apply List.Sublist.length_le
  apply List.monotone_filter_right
  intro a ha
  simp only [decide_eq_true_eq] at ha ⊢
  exact lt_of_le_of_lt h ha

/-- C4: for both implementations of `find_deep_pockets`, both for
`method='ray'` and for `method='normal'`, raising the depth threshold
never increases the flagged count (equivalently, decreasing it never
decreases the count): the ray method flags by `depth > threshold`
with per-face depths independent of the threshold, and the normal
method does not consult the threshold at all. -/
theorem deep_pockets_threshold_monotone (m : MeshDP) (t1 t2 : ℚ)
    (method : String) (h : t1 ≤ t2)
    (hm : method = "ray" ∨ method = "normal") :
    (find_deep_pockets m t2 method).1.length ≤
      (find_deep_pockets m t1 method).1.length ∧
    (ManufactureAnalysis.find_deep_pockets m t2 method).1.length ≤
      (ManufactureAnalysis.find_deep_pockets m t1 method).1.length := by
  rcases hm with rfl | rfl
  · constructor <;>
      simpa [find_deep_pockets, ManufactureAnalysis.find_deep_pockets]
        using rayDeepFaces_antitone m h
  · constructor <;>
      simp [find_deep_pockets, ManufactureAnalysis.find_deep_pockets]

/-- A two-face mesh whose probes report depths 20 mm and 2 mm. -/
def meshDP4 : MeshDP := ⟨[⟨some [20], 0⟩, ⟨some [2], 0⟩]⟩

/-- C4 witness: thresholds 10 ≤ 30 on a concrete mesh, ray method. -/
theorem deep_pockets_threshold_monotone_witness :
    (find_deep_pockets meshDP4 30 "ray").1.length ≤
      (find_deep_pockets meshDP4 10 "ray").1.length ∧
    (ManufactureAnalysis.find_deep_pockets meshDP4 30 "ray").1.length ≤
      (ManufactureAnalysis.find_deep_pockets meshDP4 10 "ray").1.length :=
  deep_pockets_threshold_monotone meshDP4 10 30 "ray" (by norm_num) (Or.inl rfl)

/-- A 51-face mesh, every face 40 mm deep by its ray probe. -/
def meshDP51 : MeshDP := ⟨List.replicate 51 ⟨some [40], 0⟩⟩

/-- C6 counterexample: with 51 flagged faces, `analyze_deep_pockets`
reports severity "high" — under the NarrowChannelDetector tiers the
claim asserts, 51 would be "medium" (50 < 51 ≤ 100).  The deep-pocket
tiers are `> 50` high / `> 20` medium, not `> 100` / `> 50`. -/
theorem deep_pocket_severity_counterexample :
    (analyze_deep_pockets meshDP51 30 "ray").count = 51 ∧
    (analyze_deep_pockets meshDP51 30 "ray").severity = "high" ∧
    "high" ≠ "medium" := by
  refine ⟨by decide, by decide, by decide⟩

/-- C6 as amended: the severity of `analyze_deep_pockets` follows the
SteepWallDetector tiers over the flagged count n — "high" if n > 50,
"medium" if 20 < n ≤ 50, "low" if n ≤ 20. -/
theorem deep_pocket_severity_tiers (m : MeshDP) (t : ℚ) (method : String) :
    ((analyze_deep_pockets m t method).count ≤ 20 →
      (analyze_deep_pockets m t method).severity = "low") ∧
    (20 < (analyze_deep_pockets m t method).count →
      (analyze_deep_pockets m t method).count ≤ 50 →
      (analyze_deep_pockets m t method).severity = "medium") ∧
    (50 < (analyze_deep_pockets m t method).count →
      (analyze_deep_pockets m t method).severity = "high") := by
  have hs : (analyze_deep_pockets m t method).severity =
      (if 50 < (analyze_deep_pockets m t method).count then "high"
       else if 20 < (analyze_deep_pockets m t method).count then "medium"
       else "low") := rfl
  rw [hs]
  generalize (analyze_deep_pockets m t method).count = n
  refine ⟨?_, ?_, ?_⟩ <;> intros <;> split_ifs <;> first | rfl | omega

/-- C6 witness: the amended tiers applied at the concrete 51-face
mesh. -/
theorem deep_pocket_severity_tiers_witness :
    (analyze_deep_pockets meshDP51 30 "ray").severity = "high" :=
  (deep_pocket_severity_tiers meshDP51 30 "ray").2.2 (by decide)

/-- A one-face mesh whose face normal points at the mesh centroid
(alignment 0.5 > 0.3). -/
def meshDP9 : MeshDP := ⟨[⟨some [40], mkRat 1 2⟩]⟩

/-- C9: evaluation at the failing input.  In `deep_pockets_check.py`
the 'normal' branch reads the misspelt attribute `mesh.verticesh`,
so it always raises and is caught: the function returns an empty
index list with a populated `error` instead of the alignment-flagged
faces with `error = None`.  The duplicate implementation in
`src/manufacture_analysis.py`, which spells `mesh.vertices`
correctly, returns exactly what the claim states on the same input. -/
theorem deep_pockets_normal_method_bug :
    (find_deep_pockets meshDP9 5 "normal").1 = [] ∧
    (find_deep_pockets meshDP9 5 "normal").2.error =
      some "Trimesh object has no attribute verticesh" ∧
    mkRat 3 10 < (meshDP9.faces.getD 0 default).alignment ∧
    (ManufactureAnalysis.find_deep_pockets meshDP9 5 "normal").1 = [0] ∧
    (ManufactureAnalysis.find_deep_pockets meshDP9 5 "normal").2.error = none := by
  refine ⟨by decide, by decide, by decide, by decide, by decide⟩

/-! ## Narrow channels (`narrow_channels_check.py`) -/

/-- The mesh as `detect_narrow_channels` sees it: the list of face
centroids (`mesh.triangles_center`). -/
structure MeshNC where
  centroids : List (ℚ × ℚ × ℚ)
deriving DecidableEq, Repr

/-- Squared euclidean distance between two centroids.  The KDTree
query returns euclidean distances; they are carried squared here (a
monotone transform), so each comparison `d < w` of the source becomes
`d² < w²`, equivalent for the nonnegative widths callers pass. -/
def sqDist (p q : ℚ × ℚ × ℚ) : ℚ :=
  (p.1 - q.1) * (p.1 - q.1) + (p.2.1 - q.2.1) * (p.2.1 - q.2.1) +
    (p.2.2 - q.2.2) * (p.2.2 - q.2.2)

/-- A possibly-infinite squared distance: `none` models the infinite
distance numpy reports for a missing neighbour. -/
def optLt (d : Option ℚ) (w : ℚ) : Bool :=
  match d with
  | none => false
  | some d => decide (d < w)

/-- `np.min` of two possibly-infinite distances. -/
def optMin (a b : Option ℚ) : Option ℚ :=
  match a, b with
  | none, b => b
  | some x, none => some x
  | some x, some y => if x ≤ y then some x else some y

/-- The squared distances from face `i`'s centroid to every face
centroid (its own included), ascending. -/
def sortedSqDists (m : MeshNC) (i : ℕ) : List ℚ :=
  List.insertionSort (· ≤ ·)
    (m.centroids.map (sqDist (m.centroids.getD i default)))

/-- `tree.query(center, k=10)`, squared: the 10 smallest distances in
ascending order, padded with infinite entries when the mesh has fewer
than 10 faces. -/
def kdQuerySq (m : MeshNC) (i : ℕ) : List (Option ℚ) :=
  ((sortedSqDists m i).map some ++ List.replicate 10 none).take 10

/-- `min_dist = np.min(dists[2:])` (the query always returns 10
entries, so `len(dists) > 2` always holds). -/
def nc_min_dist_sq (m : MeshNC) (i : ℕ) : Option ℚ :=
  ((kdQuerySq m i).drop 2).foldr optMin none

/-- The dict returned by `detect_narrow_channels`. -/
structure NCResult where
  count : ℕ
  indices : List ℕ
  severity : String
  has_problem : Bool
  recommendation : String
deriving DecidableEq, Repr

/-- `detect_narrow_channels`: flag every face whose `min_dist` is
strictly below `min_width` (the caller's default is 5.0 mm). -/
def detect_narrow_channels (m : MeshNC) (min_width : ℚ) : NCResult :=
  let narrow_faces := (List.range m.centroids.length).filter (fun i =>
    optLt (nc_min_dist_sq m i) (min_width * min_width))
  { count := narrow_faces.length
    indices := narrow_faces
    severity := if 100 < narrow_faces.length then "high"
                else if 50 < narrow_faces.length then "medium"
                else "low"
    has_problem := decide (0 < narrow_faces.length)
    recommendation := if 0 < narrow_faces.length then
        "Widen channels to improve tool access and chip evacuation."
      else "No problematic narrow channels." }

/-- The 3rd-smallest squared centroid distance counting the face
itself (whose self-distance 0 is always among the 10 nearest): the
value `np.min(dists[2:])` actually computes. -/
def third_smallest_sq (m : MeshNC) (i : ℕ) : Option ℚ :=
  ((sortedSqDists m i).drop 2).head?

/-- Modelled from the spec for the claim comparison only: "query its
k-nearest centroids and use the distance to the 3rd-nearest (skipping
the face itself)" — the squared distance to the 3rd-nearest among the
OTHER faces' centroids. -/
def specThirdNearestOtherSq (m : MeshNC) (i : ℕ) : Option ℚ :=
  ((List.insertionSort (· ≤ ·)
      ((m.centroids.eraseIdx i).map
        (sqDist (m.centroids.getD i default)))).drop 2).head?

lemma foldr_optMin_bound (c : ℚ) (l : List (Option ℚ))
    (h : ∀ y : ℚ, some y ∈ l → c ≤ y) :
    l.foldr optMin none = none ∨
      ∃ y, l.foldr optMin none = some y ∧ c ≤ y := by
  induction l with
  | nil => exact Or.inl rfl
  | cons x xs ih =>
    have hxs : ∀ y : ℚ, some y ∈ xs → c ≤ y :=
      fun y hy => h y (List.mem_cons_of_mem _ hy)
    rcases x with _ | a
    · simpa [optMin] using ih hxs
    · have ha : c ≤ a := h a (List.mem_cons_self _ _)
      rcases ih hxs with h0 | ⟨y, hy, hcy⟩
      · exact Or.inr ⟨a, by simp [List.foldr_cons, h0, optMin], ha⟩
      · simp only [List.foldr_cons, hy, optMin]
        split_ifs with hle
        · exact Or.inr ⟨a, rfl, ha⟩
        · exact Or.inr ⟨y, rfl, hcy⟩

lemma nc_min_dist_sq_eq_third (m : MeshNC) (i : ℕ) :
    nc_min_dist_sq m i = third_smallest_sq m i := by
  have hs : List.Sorted (· ≤ ·) (sortedSqDists m i) :=
    List.sorted_insertionSort _ _
  rcases h : sortedSqDists m i with _ | ⟨a, tl⟩
  · simp only [nc_min_dist_sq, kdQuerySq, third_smallest_sq, h]
    rfl
  rcases tl with _ | ⟨b, tl2⟩
  · simp only [nc_min_dist_sq, kdQuerySq, third_smallest_sq, h]
    rfl
  rcases tl2 with _ | ⟨c, tl3⟩
  · simp only [nc_min_dist_sq, kdQuerySq, third_smallest_sq, h]
    rfl
  · have hsorted : ∀ y ∈ tl3, c ≤ y := by
      rw [h] at hs
      exact (List.sorted_cons.mp
        (List.sorted_cons.mp (List.sorted_cons.mp hs).2).2).1
    simp only [nc_min_dist_sq, kdQuerySq, third_smallest_sq, h]
    show (some c :: List.take 7 (tl3.map some ++ List.replicate 10 none)).foldr
        optMin none = some c
    have hmem : ∀ y : ℚ,
        some y ∈ List.take 7 (tl3.map some ++ List.replicate 10 none) → c ≤ y := by
      intro y hy
      rcases List.mem_append.mp (List.mem_of_mem_take hy) with hl | hr
      · rcases List.mem_map.mp hl with ⟨z, hz, hzy⟩
        exact Option.some.inj hzy ▸ hsorted z hz
      · exact absurd (List.eq_of_mem_replicate hr) (by simp)
    rcases foldr_optMin_bound c _ hmem with h0 | ⟨y, hy, hcy⟩
    · rw [List.foldr_cons, h0]
      rfl
    · rw [List.foldr_cons, hy]
      simp only [optMin]
      rw [if_pos hcy]

/-- Four collinear face centroids: face 0 has other-face distances
1, 3 and 20 (squared: 1, 9, 400). -/
def meshNC4 : MeshNC := ⟨[(0, 0, 0), (1, 0, 0), (3, 0, 0), (20, 0, 0)]⟩

/-- C8 counterexample: with `min_width = 5`, face 0 of `meshNC4` is
flagged by `detect_narrow_channels` (the code compares
`np.min(dists[2:])`, the 3rd-smallest distance counting the face
itself — here 3 < 5), yet its distance to the 3rd-nearest among the
OTHER faces' centroids is 20 ≥ 5 (squared: 400 ≥ 25), so the claim's
predicate does not flag it: the code does not flag "exactly those
faces" the claim describes. -/
theorem narrow_channels_third_nearest_counterexample :
    0 ∈ (detect_narrow_channels meshNC4 5).indices ∧
    specThirdNearestOtherSq meshNC4 0 = some 400 ∧
    optLt (specThirdNearestOtherSq meshNC4 0) (5 * 5) = false := by
  refine ⟨by with_unfolding_all decide, by with_unfolding_all decide,
    by with_unfolding_all decide⟩

/-- C8 as amended: `detect_narrow_channels` flags exactly those faces
whose 3rd-smallest centroid distance counting the face itself — i.e.
the distance to the 2nd-nearest among the other faces' centroids,
when centroids are distinct — is strictly below `min_width`
(distances squared on both sides); it returns their count, their
index list, and `has_problem = (count > 0)`. -/
theorem narrow_channels_flag_characterization (m : MeshNC) (w : ℚ) :
    (detect_narrow_channels m w).indices =
      (List.range m.centroids.length).filter (fun i =>
        optLt (third_smallest_sq m i) (w * w)) ∧
    (detect_narrow_channels m w).count =
      (detect_narrow_channels m w).indices.length ∧
    ((detect_narrow_channels m w).has_problem = true ↔
      0 < (detect_narrow_channels m w).count) := by
  refine ⟨?_, rfl, ?_⟩
  · show (List.range m.centroids.length).filter _ = _
    exact List.filter_congr (fun i _ => by rw [nc_min_dist_sq_eq_third])
  · show decide (0 < (detect_narrow_channels m w).count) = true ↔
        0 < (detect_narrow_channels m w).count
    simp

/-- C10: on a mesh with fewer than 3 faces the query's 3rd entry is
an infinite padding value, which is never below `min_width`, so
`detect_narrow_channels` reports no narrow faces at all. -/
theorem narrow_channels_few_faces (m : MeshNC) (w : ℚ)
    (h : m.centroids.length < 3) :
    (detect_narrow_channels m w).count = 0 ∧
    (detect_narrow_channels m w).indices = [] ∧
    (detect_narrow_channels m w).has_problem = false := by
  have hnone : ∀ i, nc_min_dist_sq m i = none := by
    intro i
    rw [nc_min_dist_sq_eq_third]
    unfold third_smallest_sq
    have hlen : (sortedSqDists m i).length ≤ 2 := by
      unfold sortedSqDists
      rw [(List.perm_insertionSort _ _).length_eq, List.length_map]
      omega
    rw [List.drop_eq_nil_of_le hlen]
    rfl
  have hfilter : (List.range m.centroids.length).filter (fun i =>
      optLt (nc_min_dist_sq m i) (w * w)) = [] := by
    rw [List.filter_eq_nil_iff]
    intro i _
    rw [hnone i]
    simp [optLt]
  refine ⟨?_, ?_, ?_⟩ <;> simp [detect_narrow_channels, hfilter]

/-- A two-face mesh used as the C10 witness input. -/
def meshNC2 : MeshNC := ⟨[(0, 0, 0), (1, 1, 1)]⟩

/-- C10 witness: the theorem applied to a concrete two-face mesh. -/
theorem narrow_channels_few_faces_witness :
    (detect_narrow_channels meshNC2 5).count = 0 ∧
    (detect_narrow_channels meshNC2 5).indices = [] ∧
    (detect_narrow_channels meshNC2 5).has_problem = false :=
  narrow_channels_few_faces meshNC2 5 (by decide)
